import Mathlib

/-!
Verification of the cosmic-ext-radio sources: a shallow embedding of the
directory client (`radio_browser.rs`), the player supervisor (`mpv.rs`),
the playback controller (`controller.rs`) and the favorites logic
(`config.rs`, `models.rs`), with theorems settling the specified
properties of search retry, supervision backoff, controller transitions,
IPC event parsing, stream-URL validation and favorites toggling.
-/

namespace CosmicRadio

/-! ## Data model (`models.rs`, `config.rs`) -/

/-- `models.rs`: `StationRef { stationuuid, name }`. -/
structure StationRef where
  stationuuid : String
  name : String
deriving DecidableEq

/-- `models.rs`: `Station` full search-result record. -/
structure Station where
  stationuuid : String
  name : String
  country : Option String
  codec : Option String
  bitrate : Option Nat
  votes : Option Nat
deriving DecidableEq

/-- `config.rs`: `AppConfig { last_station, last_server, favorites }`. -/
structure AppConfig where
  last_station : Option StationRef
  last_server : Option String
  favorites : List StationRef
deriving DecidableEq

/-- The favorites-list mutation performed by `AppConfig::toggle_favorite`
(`config.rs` lines 69-79): find the first position whose `stationuuid`
equals the given station's, remove it if found, else push the station. -/
def toggleFav (favorites : List StationRef) (station : StationRef) :
    List StationRef :=
  match favorites.findIdx? (fun s => s.stationuuid == station.stationuuid) with
  | some idx => favorites.eraseIdx idx
  | none => favorites ++ [station]

/-- `config.rs`: `AppConfig::toggle_favorite`, acting on the `favorites`
field via `toggleFav`. -/
def AppConfig.toggle_favorite (c : AppConfig) (station : StationRef) :
    AppConfig :=
  { c with favorites := toggleFav c.favorites station }

/-! ## Favorites lemmas -/

theorem toggleFav_cons_of_ne (a st : StationRef) (l : List StationRef)
    (h : (a.stationuuid == st.stationuuid) = false) :
    toggleFav (a :: l) st = a :: toggleFav l st := by
  unfold toggleFav
  rw [List.findIdx?_cons, h]
  simp only [if_false, List.findIdx?_start_succ]
  cases hfi : l.findIdx? (fun s => s.stationuuid == st.stationuuid) with
  | none => simp
  | some i => simp [List.eraseIdx_cons_succ]

theorem toggleFav_append_self (l : List StationRef) (st : StationRef)
    (h : ∀ x ∈ l, (x.stationuuid == st.stationuuid) = false) :
    toggleFav (l ++ [st]) st = l := by
  induction l with
  | nil =>
      show toggleFav [st] st = []
      unfold toggleFav
      rw [List.findIdx?_cons]
      simp
  | cons a t ih =>
      have ha : (a.stationuuid == st.stationuuid) = false :=
        h a (List.mem_cons_self a t)
      have ht : ∀ x ∈ t, (x.stationuuid == st.stationuuid) = false :=
        fun x hx => h x (List.mem_cons_of_mem a hx)
      have he : (a :: t) ++ [st] = a :: (t ++ [st]) := rfl
      rw [he, toggleFav_cons_of_ne a st (t ++ [st]) ha, ih ht]

theorem toggleFav_absent (favs : List StationRef) (st : StationRef)
    (h : ∀ x ∈ favs, (x.stationuuid == st.stationuuid) = false) :
    toggleFav (toggleFav favs st) st = favs := by
  have h1 : favs.findIdx? (fun s => s.stationuuid == st.stationuuid) = none :=
    List.findIdx?_eq_none_iff.mpr h
  have hstep : toggleFav favs st = favs ++ [st] := by
    unfold toggleFav; rw [h1]
  rw [hstep]
  exact toggleFav_append_self favs st h

theorem toggleFav_present_perm (favs : List StationRef) (st : StationRef)
    (hnd : (favs.map (fun s => s.stationuuid)).Nodup)
    (hmem : st ∈ favs) :
    (toggleFav (toggleFav favs st) st).Perm favs := by
  induction favs with
  | nil => cases hmem
  | cons a l ih =>
      by_cases hb : (a.stationuuid == st.stationuuid) = true
      · have hau : a.stationuuid = st.stationuuid := by
          exact eq_of_beq hb
        have hnotin : a.stationuuid ∉ l.map (fun s => s.stationuuid) := by
          have := hnd
          simp only [List.map_cons, List.nodup_cons] at this
          exact this.1
        have hst_a : st = a := by
          rcases List.mem_cons.mp hmem with h | h
          · exact h
          · exfalso
            apply hnotin
            rw [hau]
            exact List.mem_map.mpr ⟨st, h, rfl⟩
        have h1 : toggleFav (a :: l) st = l := by
          unfold toggleFav
          rw [List.findIdx?_cons, hb]
          simp
        have hlf : ∀ x ∈ l, (x.stationuuid == st.stationuuid) = false := by
          intro x hx
          by_contra hcon
          apply hnotin
          have hxdef : (x.stationuuid == st.stationuuid) = true := by
            cases hxe : (x.stationuuid == st.stationuuid) with
            | false => exact absurd hxe hcon
            | true => rfl
          have : x.stationuuid = st.stationuuid := eq_of_beq hxdef
          rw [hau]
          exact List.mem_map.mpr ⟨x, hx, this⟩
        have h2 : toggleFav l st = l ++ [st] := by
          unfold toggleFav
          rw [List.findIdx?_eq_none_iff.mpr hlf]
        rw [h1, h2, hst_a]
        exact List.perm_append_singleton a l
      · have hbf : (a.stationuuid == st.stationuuid) = false := by
          cases hbe : (a.stationuuid == st.stationuuid) with
          | false => rfl
          | true => exact absurd hbe hb
        have hmem' : st ∈ l := by
          rcases List.mem_cons.mp hmem with h | h
          · exfalso
            apply hb
            rw [h]
            exact beq_self_eq_true a.stationuuid
          · exact h
        have hnd' : (l.map (fun s => s.stationuuid)).Nodup := by
          simp only [List.map_cons, List.nodup_cons] at hnd
          exact hnd.2
        rw [toggleFav_cons_of_ne a st l hbf,
            toggleFav_cons_of_ne a st (toggleFav l st) hbf]
        exact (ih hnd' hmem').cons a

/-- C7 counterexample state: favorites `[A, B]`. -/
def cfgAB : AppConfig :=
  ⟨none, none, [⟨"1", "A"⟩, ⟨"2", "B"⟩]⟩

/-- C7 counterexample station: the first favorite. -/
def stA : StationRef := ⟨"1", "A"⟩

/-- Witness state: favorites `[A]`. -/
def cfgA : AppConfig := ⟨none, none, [stA]⟩

/-- Witness station, absent from `cfgA`. -/
def stB : StationRef := ⟨"2", "B"⟩

/-- C7 (counterexample): toggling the same station twice is not a list-level
no-op: starting from favorites `[A, B]`, toggling `A` twice yields `[B, A]`,
which differs from the original list. -/
theorem toggle_favorite_twice_changes_order :
    (cfgAB.toggle_favorite stA).toggle_favorite stA ≠ cfgAB := by
  decide

/-- C7 (amended): toggling the same station id twice returns the favorites
list to its original value when the id is absent (exact round trip); when the
station is present in a duplicate-free favorites list, toggling twice returns
a permutation of the original list (the entry moves to the end). -/
theorem toggle_favorite_round_trip (c : AppConfig) (st : StationRef) :
    ((∀ x ∈ c.favorites, (x.stationuuid == st.stationuuid) = false) →
      (c.toggle_favorite st).toggle_favorite st = c) ∧
    ((c.favorites.map (fun s => s.stationuuid)).Nodup → st ∈ c.favorites →
      (((c.toggle_favorite st).toggle_favorite st).favorites).Perm
        c.favorites) := by
  constructor
  · intro h
    show ({ c with favorites := toggleFav (toggleFav c.favorites st) st } :
        AppConfig) = c
    rw [toggleFav_absent c.favorites st h]
  · intro hnd hmem
    show (toggleFav (toggleFav c.favorites st) st).Perm c.favorites
    exact toggleFav_present_perm c.favorites st hnd hmem

/-- C7 witness: instantiating the round-trip theorem, with favorites `[A]`:
toggling an absent station `B` twice is an exact no-op, and toggling the
present station `A` twice permutes the list. -/
theorem toggle_favorite_round_trip_holds :
    ((cfgA.toggle_favorite stB).toggle_favorite stB = cfgA) ∧
    ((((cfgA.toggle_favorite stA).toggle_favorite stA).favorites).Perm
      cfgA.favorites) :=
  ⟨(toggle_favorite_round_trip cfgA stB).1 (by decide),
   (toggle_favorite_round_trip cfgA stA).2 (by decide) (by decide)⟩

/-- C9: `toggle_favorite` preserves the no-duplicate-station-ids invariant
of the favorites list. -/
theorem toggle_favorite_preserves_nodup (c : AppConfig) (st : StationRef)
    (hnd : (c.favorites.map (fun s => s.stationuuid)).Nodup) :
    (((c.toggle_favorite st).favorites).map (fun s => s.stationuuid)).Nodup := by
  show ((toggleFav c.favorites st).map (fun s => s.stationuuid)).Nodup
  unfold toggleFav
  cases hfi : c.favorites.findIdx? (fun s => s.stationuuid == st.stationuuid) with
  | some idx =>
      exact hnd.sublist ((c.favorites.eraseIdx_sublist idx).map _)
  | none =>
      have habs := List.findIdx?_eq_none_iff.mp hfi
      rw [List.map_append]
      rw [List.nodup_append]
      refine ⟨hnd, List.nodup_singleton _, ?_⟩
      intro u hu hv
      simp only [List.map_cons, List.map_nil, List.mem_singleton] at hv
      rcases List.mem_map.mp hu with ⟨x, hx, hxe⟩
      have := habs x hx
      rw [hv] at hxe
      rw [← hxe] at this
      simp at this

/-- C9 witness: the invariant-preservation theorem at a concrete
duplicate-free favorites list. -/
theorem toggle_favorite_preserves_nodup_holds :
    (((cfgAB.toggle_favorite stB).favorites).map
      (fun s => s.stationuuid)).Nodup :=
  toggle_favorite_preserves_nodup cfgAB stB (by decide)

/-! ## Player supervisor data (`mpv.rs`) -/

/-- `mpv.rs`: `MpvCommand`. The enum in `mpv.rs` has the first five
variants; `controller.rs` additionally references a `SetTitle` variant
(lines 161 and 179), which we include so the controller arms can be
embedded — `io_loop` has no arm for it. -/
inductive MpvCommand
  | loadUrl (url : String)
  | togglePause
  | setPause (p : Bool)
  | stop
  | shutdown
  | setTitle (t : String)
deriving DecidableEq

/-- `mpv.rs`: `MpvEvent`. -/
inductive MpvEvent
  | ready
  | mediaTitle (t : Option String)
  | pause (p : Bool)
  | crashed (e : String)
deriving DecidableEq

/-- A JSON value, modelling `serde_json::Value` as far as the IPC
protocol needs (numbers as integers suffice for the observed lines). -/
inductive Json
  | null
  | bool (b : Bool)
  | num (n : Int)
  | str (s : String)
  | arr (xs : List Json)
  | obj (fields : List (String × Json))

/-- `serde_json::Value::as_str`. -/
def Json.asStr : Json → Option String
  | .str s => some s
  | _ => none

/-- `serde_json::Value::as_bool`. -/
def Json.asBool : Json → Option Bool
  | .bool b => some b
  | _ => none

/-- First field of a JSON object with the given key, as serde field
lookup. -/
def jsonLookup (fields : List (String × Json)) (key : String) : Option Json :=
  (fields.find? (fun p => p.1 == key)).map (fun p => p.2)

/-- `mpv.rs`: the deserialized shape of an incoming IPC line
(`MpvIncoming { event, name, data }`, all fields defaulted). -/
structure MpvIncoming where
  event : Option String
  name : Option String
  data : Option Json

/-- serde deserialization of an `Option<String>` field: absent and `null`
give `none`, a string gives `some`, any other value is a type error. -/
def decodeOptString (v : Option Json) : Except String (Option String) :=
  match v with
  | none => .ok none
  | some .null => .ok none
  | some (.str s) => .ok (some s)
  | some _ => .error "invalid type for string field"

/-- serde deserialization of an `Option<serde_json::Value>` field: absent
and `null` give `none`, anything else is kept verbatim. -/
def decodeOptValue (v : Option Json) : Option Json :=
  match v with
  | none => none
  | some .null => none
  | some j => some j

/-- serde deserialization of `MpvIncoming` from a JSON value: the value
must be an object; `event` and `name` are optional strings, `data` is an
optional arbitrary value. -/
def decodeMpvIncoming (j : Json) : Except String MpvIncoming :=
  match j with
  | .obj fields =>
      match decodeOptString (jsonLookup fields "event") with
      | .error e => .error e
      | .ok event =>
          match decodeOptString (jsonLookup fields "name") with
          | .error e => .error e
          | .ok name =>
              .ok ⟨event, name, decodeOptValue (jsonLookup fields "data")⟩
  | _ => .error "expected a JSON object"

/-- `mpv.rs`: `parse_event` (lines 220-241). The argument is the result
of JSON-parsing the incoming line: `none` stands for a line that is not
valid JSON (serde error). Only `property-change` events for `media-title`
and `pause` yield events; the title is coerced with `as_str` (giving
`none` on a non-string) and the pause flag with `as_bool().unwrap_or(false)`. -/
def parse_event (line : Option Json) : Except String MpvEvent :=
  match line with
  | none => .error "Invalid mpv IPC JSON"
  | some j =>
      match decodeMpvIncoming j with
      | .error e => .error e
      | .ok inc =>
          if inc.event ≠ some "property-change" then
            .error "Not a property-change event"
          else
            match inc.name with
            | some n =>
                if n = "media-title" then
                  .ok (.mediaTitle (inc.data.bind Json.asStr))
                else if n = "pause" then
                  .ok (.pause ((inc.data.bind Json.asBool).getD false))
                else .error "Unrecognized property-change"
            | none => .error "Unrecognized property-change"

/-- `mpv.rs`: `mpv_cmd` — wraps a command array in
`{"command": [...]}`. -/
def mpv_cmd (command : List Json) : Json :=
  .obj [("command", .arr command)]

/-- One iteration input of `io_loop` (`mpv.rs` lines 129-187): the branch
of the `select!` that fires and its payload. A received line carries the
result of JSON-parsing it (`none` = malformed). -/
inductive IoInput
  | childExit (status : String)
  | lineReadErr (e : String)
  | lineClosed
  | line (content : Option Json)
  | cmdClosed
  | cmd (c : MpvCommand)

/-- Result of one `io_loop` iteration: keep looping (emitting at most one
event upward and writing the given requests to the socket), or leave the
loop normally, or leave it with an error (which `run_mpv` turns into a
`Crashed` event). -/
inductive IoStep
  | continue (emitted : Option MpvEvent) (sent : List Json)
  | exitOk
  | exitErr (e : String)

/-- `mpv.rs`: one iteration of `io_loop`. A child exit, a socket read
error and a closed socket end the session with an error; a received line
emits the parsed event if `parse_event` succeeds and is otherwise
silently ignored; commands are translated to protocol requests;
`Shutdown` and a closed command queue end the loop normally. -/
def ioLoopStep (input : IoInput) : IoStep :=
  match input with
  | .childExit status => .exitErr ("mpv exited: " ++ status)
  | .lineReadErr e => .exitErr e
  | .lineClosed => .exitErr "mpv IPC closed"
  | .line content =>
      match parse_event content with
      | .ok ev => .continue (some ev) []
      | .error _ => .continue none []
  | .cmdClosed => .exitOk
  | .cmd c =>
      match c with
      | .loadUrl url =>
          .continue none [mpv_cmd [.str "loadfile", .str url, .str "replace"]]
      | .togglePause =>
          .continue none [mpv_cmd [.str "cycle", .str "pause"]]
      | .setPause p =>
          .continue none [mpv_cmd [.str "set_property", .str "pause", .bool p]]
      | .stop => .continue none [mpv_cmd [.str "stop"]]
      | .shutdown => .exitOk
      | .setTitle _ => .continue none []

/-- JSON value of the line
`{"event":"property-change","name":"media-title","data":"Song Title"}`. -/
def mediaTitleLine : Json :=
  .obj [("event", .str "property-change"), ("name", .str "media-title"),
        ("data", .str "Song Title")]

/-- JSON value of the line
`{"event":"property-change","name":"pause","data":true}`. -/
def pauseLine : Json :=
  .obj [("event", .str "property-change"), ("name", .str "pause"),
        ("data", .bool true)]

/-! ## Supervision loop (`mpv.rs`, `run_mpv`) -/

/-- What the environment does in one iteration of the `run_mpv` loop:
the command channel is found closed, `spawn_and_connect` fails, the
session is established and later crashes (`io_loop` returns an error),
or the session ends normally (`io_loop` returns `Ok`). -/
inductive IterOutcome
  | channelClosed
  | connectFail (e : String)
  | sessionCrash (e : String)
  | sessionEnd

/-- Observable actions of `run_mpv`: events sent on the event channel
and sleeps. -/
inductive TraceItem
  | emitReady
  | emitCrashed (e : String)
  | sleep (ms : Nat)
deriving DecidableEq

/-- `mpv.rs`: one iteration of the `run_mpv` loop (lines 47-76) at the
current backoff: the new backoff, the emitted trace, and whether the
loop terminates. A successful spawn/connect resets the backoff to 200 ms
before the session runs, so both session endings leave it at 200; a
failed spawn/connect emits `Crashed`, sleeps the current backoff, and
doubles it up to the 5000 ms ceiling. -/
def runMpvStep (backoff : Nat) : IterOutcome → Nat × List TraceItem × Bool
  | .channelClosed => (backoff, [], true)
  | .connectFail e =>
      (min (backoff * 2) 5000, [.emitCrashed e, .sleep backoff], false)
  | .sessionCrash e => (200, [.emitReady, .emitCrashed e], false)
  | .sessionEnd => (200, [.emitReady], true)

/-- The `run_mpv` loop from a given backoff over a sequence of iteration
outcomes, accumulating the trace (stopping at the first terminating
iteration). -/
def runMpvAux (backoff : Nat) : List IterOutcome → List TraceItem
  | [] => []
  | o :: rest =>
      let s := runMpvStep backoff o
      if s.2.2 then s.2.1
      else s.2.1 ++ runMpvAux s.1 rest

/-- `mpv.rs`: `run_mpv`, starting from the initial 200 ms backoff. -/
def run_mpv (outcomes : List IterOutcome) : List TraceItem :=
  runMpvAux 200 outcomes

theorem runMpvAux_sleep_bounds (outs : List IterOutcome) :
    ∀ b, 200 ≤ b → b ≤ 5000 → ∀ ms, TraceItem.sleep ms ∈ runMpvAux b outs →
      200 ≤ ms ∧ ms ≤ 5000 := by
  induction outs with
  | nil => intro b _ _ ms h; simp [runMpvAux] at h
  | cons o rest ih =>
      intro b hb1 hb2 ms hmem
      cases o with
      | channelClosed => simp [runMpvAux, runMpvStep] at hmem
      | connectFail e =>
          simp only [runMpvAux, runMpvStep, if_false, List.cons_append,
            List.nil_append, List.mem_cons, TraceItem.sleep.injEq,
            reduceCtorEq, false_or] at hmem
          rcases hmem with h | h
          · subst h; exact ⟨hb1, hb2⟩
          · exact ih (min (b * 2) 5000)
              (le_min (le_trans hb1 (by omega)) (by omega))
              (min_le_right _ _) ms h
      | sessionCrash e =>
          simp only [runMpvAux, runMpvStep, if_false, List.cons_append,
            List.nil_append, List.mem_cons, reduceCtorEq, false_or] at hmem
          exact ih 200 (le_refl 200) (by omega) ms hmem
      | sessionEnd => simp [runMpvAux, runMpvStep] at hmem

/-- C2: in the supervision loop, a backoff sleep happens only after a
failed spawn/connect — a failed connect emits `Crashed`, sleeps the
current backoff before the next attempt and doubles the backoff up to
the 5 s ceiling; a crash of an established session emits `Ready` then
`Crashed` with no sleep and continues immediately, leaving the backoff
at its reset value 200 ms (any successful connect resets it); the loop
starts at 200 ms, and every sleep in any run lies between 200 ms and
5000 ms. -/
theorem run_mpv_backoff_policy :
    (∀ outs, run_mpv outs = runMpvAux 200 outs) ∧
    (∀ b e, runMpvStep b (.connectFail e) =
      (min (b * 2) 5000, [.emitCrashed e, .sleep b], false)) ∧
    (∀ b e, runMpvStep b (.sessionCrash e) =
      (200, [.emitReady, .emitCrashed e], false)) ∧
    (∀ b e ms, TraceItem.sleep ms ∉ (runMpvStep b (.sessionCrash e)).2.1) ∧
    (∀ b, b ≤ 5000 → min (b * 2) 5000 ≤ 5000) ∧
    (∀ outs ms, TraceItem.sleep ms ∈ run_mpv outs → 200 ≤ ms ∧ ms ≤ 5000) := by
  refine ⟨fun _ => rfl, fun _ _ => rfl, fun _ _ => rfl, ?_, ?_, ?_⟩
  · intro b e ms h
    simp [runMpvStep] at h
  · intro b _
    exact min_le_right _ _
  · intro outs ms h
    exact runMpvAux_sleep_bounds outs 200 (le_refl 200) (by omega) ms h

/-- C2 witness: in the run whose single iteration is a failed connect,
the 200 ms initial backoff sleep is recorded and lies within the bounds;
the ceiling conjunct is applied at backoff 4000. -/
theorem run_mpv_backoff_policy_holds :
    (200 ≤ 200 ∧ 200 ≤ 5000) ∧ min (4000 * 2) 5000 ≤ 5000 :=
  ⟨run_mpv_backoff_policy.2.2.2.2.2 [.connectFail "boom"] 200 (by decide),
   run_mpv_backoff_policy.2.2.2.2.1 4000 (by decide)⟩

/-! ## IPC parsing theorems (C4, C10) -/

/-- C4: the media-title property-change line parses to
`MediaTitle (some "Song Title")` and the pause property-change line to
`Pause true`; a malformed-JSON line, a decoded line whose event is not
`property-change`, and a property-change for an unobserved property all
produce no event, and `io_loop` keeps running on any received line. -/
theorem parse_event_protocol :
    parse_event (some mediaTitleLine) =
      .ok (.mediaTitle (some "Song Title")) ∧
    parse_event (some pauseLine) = .ok (.pause true) ∧
    ioLoopStep (.line none) = .continue none [] ∧
    (∀ j : Json, (parse_event (some j)).isOk = false →
      ioLoopStep (.line (some j)) = .continue none []) ∧
    (∀ (j : Json) (inc : MpvIncoming), decodeMpvIncoming j = .ok inc →
      inc.event ≠ some "property-change" →
      (parse_event (some j)).isOk = false) ∧
    (∀ (j : Json) (inc : MpvIncoming) (n : String),
      decodeMpvIncoming j = .ok inc →
      inc.event = some "property-change" → inc.name = some n →
      n ≠ "media-title" → n ≠ "pause" →
      (parse_event (some j)).isOk = false) := by
  refine ⟨rfl, rfl, rfl, ?_, ?_, ?_⟩
  · intro j h
    simp only [ioLoopStep]
    cases hp : parse_event (some j) with
    | ok ev => rw [hp] at h; simp [Except.isOk, Except.toBool] at h
    | error e => rfl
  · intro j inc hdec hev
    simp only [parse_event, hdec, if_pos hev]
    rfl
  · intro j inc n hdec hev hname hn1 hn2
    have hevne : ¬ inc.event ≠ some "property-change" := by
      rw [hev]; exact fun h => h rfl
    simp only [parse_event, hdec, if_neg hevne, hname, if_neg hn1, if_neg hn2]
    rfl

/-- C4 witness: the parsing theorem applied to the line
`{"event":"tick"}` (an event other than `property-change`), showing it
yields no event and leaves the loop running. -/
theorem parse_event_protocol_holds :
    ioLoopStep (.line (some (.obj [("event", .str "tick")]))) =
      .continue none [] :=
  parse_event_protocol.2.2.2.1 (.obj [("event", .str "tick")])
    (parse_event_protocol.2.2.2.2.1 (.obj [("event", .str "tick")])
      ⟨some "tick", none, none⟩ rfl (by simp))

/-- C10: a well-formed `pause` property-change whose `data` is missing or
not a boolean parses to `Pause false` (an emitted event), and a
well-formed `media-title` property-change whose `data` is missing or not
a string parses to `MediaTitle none`. -/
theorem parse_event_coerces_wrong_type :
    (∀ d : Json, d.asBool = none →
      parse_event (some (.obj [("event", .str "property-change"),
        ("name", .str "pause"), ("data", d)])) = .ok (.pause false)) ∧
    parse_event (some (.obj [("event", .str "property-change"),
      ("name", .str "pause")])) = .ok (.pause false) ∧
    (∀ d : Json, d.asStr = none →
      parse_event (some (.obj [("event", .str "property-change"),
        ("name", .str "media-title"), ("data", d)])) =
        .ok (.mediaTitle none)) ∧
    parse_event (some (.obj [("event", .str "property-change"),
      ("name", .str "media-title")])) = .ok (.mediaTitle none) := by
  refine ⟨?_, rfl, ?_, rfl⟩
  · intro d hd
    cases d with
    | bool b => simp [Json.asBool] at hd
    | null => rfl
    | num n => rfl
    | str s => rfl
    | arr xs => rfl
    | obj fields => rfl
  · intro d hd
    cases d with
    | str s => simp [Json.asStr] at hd
    | null => rfl
    | num n => rfl
    | bool b => rfl
    | arr xs => rfl
    | obj fields => rfl

/-- C10 witness: the coercion theorem at concrete wrong-typed data — a
numeric `pause` payload gives `Pause false` and a numeric `media-title`
payload gives `MediaTitle none`. -/
theorem parse_event_coerces_wrong_type_holds :
    parse_event (some (.obj [("event", .str "property-change"),
      ("name", .str "pause"), ("data", .num 1)])) = .ok (.pause false) ∧
    parse_event (some (.obj [("event", .str "property-change"),
      ("name", .str "media-title"), ("data", .num 1)])) =
      .ok (.mediaTitle none) :=
  ⟨parse_event_coerces_wrong_type.1 (.num 1) rfl,
   parse_event_coerces_wrong_type.2.2.1 (.num 1) rfl⟩

/-! ## Directory client retry wrapper (`radio_browser.rs`) -/

/-- The bootstrap host (`BOOTSTRAP_BASE` with the `https://` prefix
stripped), the fallback server of the attempt loop. -/
def BOOTSTRAP_HOST : String := "all.api.radio-browser.info"

/-- Server selection of `with_server_retry`: index `attempt % len` into
the prepared server list, falling back to the bootstrap host when the
list is empty. -/
def pickServer (servers : List String) (attempt : Nat) : String :=
  (servers[attempt % servers.length]?).getD BOOTSTRAP_HOST

/-- `Vec::swap` of two list positions (identity when an index is out of
bounds; the retry wrapper only swaps valid positions). -/
def listSwap (xs : List String) (i j : Nat) : List String :=
  match xs[i]?, xs[j]? with
  | some a, some b => (xs.set i b).set j a
  | _, _ => xs

/-- The sticky-preference step of `with_server_retry` (lines 136-140):
if the last successfully used server occurs in the shuffled list, swap
it to the front. -/
def stickyFront (servers : List String) (last : Option String) :
    List String :=
  match last with
  | none => servers
  | some l =>
      match servers.findIdx? (fun s => s == l) with
      | some pos => listSwap servers 0 pos
      | none => servers

/-- Outcome of the attempt loop: the action result, the successfully
used server (if any), the servers tried in order, and the sleeps
performed after failures. -/
structure RetryResult (T : Type) where
  result : Except String T
  succServer : Option String
  tried : List String
  sleeps : List Nat

/-- The attempt loop of `with_server_retry` (lines 142-162): `fuel`
attempts remain and `attempt` is the current attempt index. A success
returns at once recording the server; a failure is wrapped with attempt
context, kept as the latest error, and followed by a
`200 * 2 ^ attempt` ms sleep. -/
def retryAux {T : Type} (action : String)
    (f : Nat → String → Except String T) (servers : List String) :
    Nat → Nat → Option String → List String → List Nat → RetryResult T
  | _, 0, lastErr, tried, sleeps =>
      ⟨.error (lastErr.getD (action ++ " failed")), none,
        tried.reverse, sleeps.reverse⟩
  | attempt, fuel + 1, _lastErr, tried, sleeps =>
      let server := pickServer servers attempt
      match f attempt ("https://" ++ server) with
      | .ok v =>
          ⟨.ok v, some server, (server :: tried).reverse, sleeps.reverse⟩
      | .error e =>
          retryAux action f servers (attempt + 1) fuel
            (some (action ++ " attempt " ++ toString attempt ++
              " failed: " ++ e))
            (server :: tried) ((200 * 2 ^ attempt) :: sleeps)

/-- `radio_browser.rs`: `with_server_retry` (lines 129-165), given the
already-shuffled discovered server list (discovery and shuffling are the
probabilistic environment): apply the sticky-front step, then make up to
4 attempts. The second component is the updated `last_server` field —
the successful server, else the previous value. -/
def with_server_retry {T : Type} (action : String)
    (f : Nat → String → Except String T) (shuffled : List String)
    (lastServer : Option String) : RetryResult T × Option String :=
  let servers := stickyFront shuffled lastServer
  let r := retryAux action f servers 0 4 none [] []
  (r, match r.succServer with | some s => some s | none => lastServer)

theorem retryAux_first_success {T : Type} (action : String)
    (f : Nat → String → Except String T) (servers : List String)
    (k : Nat) (v : T) (e : Nat → String) (hk : k < 4)
    (hfail : ∀ i, i < k →
      f i ("https://" ++ pickServer servers i) = .error (e i))
    (hsucc : f k ("https://" ++ pickServer servers k) = .ok v) :
    retryAux action f servers 0 4 none [] [] =
      ⟨.ok v, some (pickServer servers k),
        (List.range (k + 1)).map (pickServer servers),
        (List.range k).map (fun i => 200 * 2 ^ i)⟩ := by
  interval_cases k
  · simp [retryAux, hsucc, List.range_succ]
  · have h0 := hfail 0 (by omega)
    simp [retryAux, h0, hsucc, List.range_succ]
  · have h0 := hfail 0 (by omega)
    have h1 := hfail 1 (by omega)
    simp [retryAux, h0, h1, hsucc, List.range_succ]
  · have h0 := hfail 0 (by omega)
    have h1 := hfail 1 (by omega)
    have h2 := hfail 2 (by omega)
    simp [retryAux, h0, h1, h2, hsucc, List.range_succ]

theorem retryAux_all_fail {T : Type} (action : String)
    (f : Nat → String → Except String T) (servers : List String)
    (e : Nat → String)
    (hfail : ∀ i, i < 4 →
      f i ("https://" ++ pickServer servers i) = .error (e i)) :
    retryAux action f servers 0 4 none [] [] =
      ⟨.error (action ++ " attempt " ++ toString 3 ++ " failed: " ++ e 3),
        none, (List.range 4).map (pickServer servers),
        [200, 400, 800, 1600]⟩ := by
  have h0 := hfail 0 (by omega)
  have h1 := hfail 1 (by omega)
  have h2 := hfail 2 (by omega)
  have h3 := hfail 3 (by omega)
  simp [retryAux, h0, h1, h2, h3, List.range_succ]

theorem stickyFront_mem_head (sh : List String) (srv : String)
    (hmem : srv ∈ sh) :
    pickServer (stickyFront sh (some srv)) 0 = srv := by
  cases hfi : sh.findIdx? (fun s => s == srv) with
  | none =>
      exfalso
      have := List.findIdx?_eq_none_iff.mp hfi srv hmem
      simp at this
  | some pos =>
      obtain ⟨hlt, hp, -⟩ := List.findIdx?_eq_some_iff_getElem.mp hfi
      have hsv : sh[pos] = srv := eq_of_beq hp
      have h0 : 0 < sh.length := Nat.lt_of_le_of_lt (Nat.zero_le pos) hlt
      simp only [stickyFront, hfi]
      unfold listSwap
      rw [List.getElem?_eq_getElem h0, List.getElem?_eq_getElem hlt]
      unfold pickServer
      by_cases hpos : pos = 0
      · subst hpos
        simp only [List.length_set, Nat.zero_mod]
        rw [List.getElem?_set_self (by simpa using h0)]
        simp [hsv]
      · simp only [List.length_set, Nat.zero_mod]
        rw [List.getElem?_set_ne hpos, List.getElem?_set_self h0]
        simp [hsv]

/-- C1: the retry wrapper of `search` and `resolve_station_url`, applied
to the shuffled mirror pool with the last-used mirror swapped to the
front: attempt `i` targets pool index `i % len`; if the first `k < 4`
attempts fail and attempt `k` succeeds, the wrapper returns the success,
records that mirror as last-used, tried exactly the first `k + 1` rotated
mirrors and slept `200 * 2 ^ i` ms after failure `i`; if all 4 attempts
fail, it returns the last error wrapped with attempt context, keeps the
previous last-used mirror and slept 200, 400, 800, 1600 ms; and in the
4-mirror scenario with three failures then a success, the call succeeds
and the succeeding mirror sits in front on any later call whose
discovered pool contains it. -/
theorem with_server_retry_spec :
    (∀ (servers : List String) (attempt : Nat),
      pickServer servers attempt =
        (servers[attempt % servers.length]?).getD BOOTSTRAP_HOST) ∧
    (∀ (T : Type) (action : String) (f : Nat → String → Except String T)
      (shuffled : List String) (last : Option String) (k : Nat) (v : T)
      (e : Nat → String), k < 4 →
      (∀ i, i < k → f i ("https://" ++
        pickServer (stickyFront shuffled last) i) = .error (e i)) →
      f k ("https://" ++ pickServer (stickyFront shuffled last) k) = .ok v →
      (with_server_retry action f shuffled last).1.result = .ok v ∧
      (with_server_retry action f shuffled last).2 =
        some (pickServer (stickyFront shuffled last) k) ∧
      (with_server_retry action f shuffled last).1.tried =
        (List.range (k + 1)).map (pickServer (stickyFront shuffled last)) ∧
      (with_server_retry action f shuffled last).1.sleeps =
        (List.range k).map (fun i => 200 * 2 ^ i)) ∧
    (∀ (T : Type) (action : String) (f : Nat → String → Except String T)
      (shuffled : List String) (last : Option String) (e : Nat → String),
      (∀ i, i < 4 → f i ("https://" ++
        pickServer (stickyFront shuffled last) i) = .error (e i)) →
      (with_server_retry action f shuffled last).1.result =
        .error (action ++ " attempt " ++ toString 3 ++ " failed: " ++ e 3) ∧
      (with_server_retry action f shuffled last).2 = last ∧
      (with_server_retry action f shuffled last).1.sleeps =
        [200, 400, 800, 1600]) ∧
    (∀ (T : Type) (action : String) (f : Nat → String → Except String T)
      (shuffled : List String) (last : Option String) (v : T)
      (e : Nat → String),
      (stickyFront shuffled last).length = 4 →
      (∀ i, i < 3 → f i ("https://" ++
        pickServer (stickyFront shuffled last) i) = .error (e i)) →
      f 3 ("https://" ++ pickServer (stickyFront shuffled last) 3) = .ok v →
      (with_server_retry action f shuffled last).1.result = .ok v ∧
      (with_server_retry action f shuffled last).2 =
        some (pickServer (stickyFront shuffled last) 3) ∧
      (∀ sh2, pickServer (stickyFront shuffled last) 3 ∈ sh2 →
        pickServer (stickyFront sh2
          (some (pickServer (stickyFront shuffled last) 3))) 0 =
          pickServer (stickyFront shuffled last) 3)) := by
  refine ⟨fun _ _ => rfl, ?_, ?_, ?_⟩
  · intro T action f shuffled last k v e hk hfail hsucc
    have h := retryAux_first_success action f (stickyFront shuffled last)
      k v e hk hfail hsucc
    refine ⟨?_, ?_, ?_, ?_⟩ <;> simp [with_server_retry, h]
  · intro T action f shuffled last e hfail
    have h := retryAux_all_fail action f (stickyFront shuffled last) e hfail
    refine ⟨?_, ?_, ?_⟩ <;> simp [with_server_retry, h]
  · intro T action f shuffled last v e _hlen hfail hsucc
    have h := retryAux_first_success action f (stickyFront shuffled last)
      3 v e (by omega) hfail hsucc
    refine ⟨?_, ?_, fun sh2 hm => stickyFront_mem_head sh2 _ hm⟩ <;>
      simp [with_server_retry, h]

/-- Witness action for the retry wrapper: fails on attempts 0 to 2,
succeeds on attempt 3. -/
def exF : Nat → String → Except String Nat :=
  fun attempt _ => if attempt = 3 then .ok 42 else .error "down"

/-- C1 witness: the retry theorem's failover scenario at a concrete
4-mirror pool where attempts 0-2 fail and attempt 3 succeeds — the call
returns the success, the fourth rotated mirror `d` becomes the last-used
server, and a later call whose pool contains `d` tries `d` first. -/
theorem with_server_retry_spec_holds :
    (with_server_retry "search" exF ["a", "b", "c", "d"] none).1.result =
      .ok 42 ∧
    (with_server_retry "search" exF ["a", "b", "c", "d"] none).2 =
      some "d" ∧
    pickServer (stickyFront ["c", "d", "a", "b"] (some "d")) 0 = "d" := by
  have hpick : pickServer (stickyFront ["a", "b", "c", "d"] none) 3 = "d" :=
    rfl
  have h := (with_server_retry_spec.2.2.2 Nat "search" exF
    ["a", "b", "c", "d"] none 42 (fun _ => "down") rfl
    (by
      intro i hi
      have hne : i ≠ 3 := by omega
      simp [exF, hne]) rfl)
  refine ⟨h.1, ?_, ?_⟩
  · rw [h.2.1, hpick]
  · have := h.2.2 ["c", "d", "a", "b"] (by rw [hpick]; decide)
    rw [hpick] at this
    exact this

/-! ## Playback controller (`controller.rs`) -/

/-- `controller.rs`: `PlaybackPhase`. -/
inductive PlaybackPhase
  | notConfigured
  | idle
  | playing
  | paused
  | error
deriving DecidableEq

/-- `controller.rs`: the published `ControllerState` snapshot. -/
structure ControllerState where
  phase : PlaybackPhase
  station : Option StationRef
  media_title : Option String
  error : Option String
  search_query : String
  search_loading : Bool
  search_results : List Station
  favorites : List StationRef
deriving DecidableEq

/-- `controller.rs`: `UiCommand`. -/
inductive UiCommand
  | search (q : String)
  | play (station : StationRef)
  | togglePause
  | stop
  | toggleFavorite (station : StationRef)
  | shutdown

/-- `controller.rs`: `InternalMsg` — results of the spawned background
lookups (search, URL resolution). -/
inductive InternalMsg
  | searchDone (query : String) (res : Except String (List Station))
  | resolveDone (station : StationRef) (res : Except String String)

/-- One input of the controller loop's `select!`: a UI command, a
supervisor event, the supervisor event channel closing, or an internal
lookup result. -/
inductive CtrlInput
  | ui (c : UiCommand)
  | mpv (e : MpvEvent)
  | mpvClosed
  | internal (m : InternalMsg)

/-- A background lookup spawned by the controller. -/
inductive LookupReq
  | searchReq (q : String) (limit : Nat)
  | resolveReq (station : StationRef)
deriving DecidableEq

/-- The controller loop's full local state: the published snapshot, the
in-memory config, the pending stream URL, the desired-paused flag, and
the directory client's current `last_server` (read when a resolution
completes). -/
structure CtrlState where
  state : ControllerState
  config : AppConfig
  current_url : Option String
  want_paused : Bool
  rb_last_server : Option String
deriving DecidableEq

/-- Effects of one controller loop iteration: the new local state, the
snapshots published on the watch channel, the commands sent to the
supervisor, the configs handed to background saves, the lookups spawned,
the sleeps performed, and whether the loop returned. -/
structure StepOut where
  st : CtrlState
  published : List ControllerState
  mpvCmds : List MpvCommand
  saves : List AppConfig
  spawns : List LookupReq
  sleeps : List Nat
  terminated : Bool
deriving DecidableEq

/-- `controller.rs`: one iteration of the `controller_main` loop
(lines 133-300), handling a single input exactly as the corresponding
`select!` arm does. -/
def controller_step (s : CtrlState) : CtrlInput → StepOut
  | .ui (.search q) =>
      let st' := { s.state with
        search_query := q, search_loading := true, error := none }
      { st := { s with state := st' }, published := [st'], mpvCmds := [],
        saves := [], spawns := [.searchReq st'.search_query 25],
        sleeps := [], terminated := false }
  | .ui (.play station) =>
      let st' := { s.state with
        error := none, media_title := none,
        station := some station, phase := .idle }
      { st := { s with state := st', want_paused := false },
        published := [st'], mpvCmds := [.setTitle station.name],
        saves := [], spawns := [.resolveReq station], sleeps := [],
        terminated := false }
  | .ui .togglePause =>
      { st := { s with state := { s.state with error := none } },
        published := [], mpvCmds := [.togglePause], saves := [],
        spawns := [], sleeps := [], terminated := false }
  | .ui .stop =>
      let st' := { s.state with
        error := none, station := none,
        media_title := none, phase := .notConfigured }
      let cfg' := { s.config with last_station := none }
      { st := { s with
          state := st', config := cfg', current_url := none,
          want_paused := false },
        published := [st'], mpvCmds := [.stop, .setTitle ""],
        saves := [cfg'], spawns := [], sleeps := [], terminated := false }
  | .ui (.toggleFavorite station) =>
      let cfg' := s.config.toggle_favorite station
      let st' := { s.state with favorites := cfg'.favorites }
      { st := { s with state := st', config := cfg' },
        published := [st'], mpvCmds := [], saves := [cfg'], spawns := [],
        sleeps := [], terminated := false }
  | .ui .shutdown =>
      { st := s, published := [], mpvCmds := [.shutdown], saves := [],
        spawns := [], sleeps := [], terminated := true }
  | .mpvClosed =>
      let st' := { s.state with
        phase := .error, error := some "mpv controller stopped" }
      { st := { s with state := st' }, published := [st'], mpvCmds := [],
        saves := [], spawns := [], sleeps := [], terminated := true }
  | .mpv .ready =>
      match s.current_url with
      | some url =>
          let st' := { s.state with
            phase := if s.want_paused then .paused else .playing,
            error := none }
          { st := { s with state := st' }, published := [st'],
            mpvCmds := [.loadUrl url, .setPause s.want_paused],
            saves := [], spawns := [], sleeps := [], terminated := false }
      | none =>
          { st := s, published := [], mpvCmds := [], saves := [],
            spawns := [], sleeps := [], terminated := false }
  | .mpv (.mediaTitle t) =>
      let st' := { s.state with media_title := t }
      { st := { s with state := st' }, published := [st'], mpvCmds := [],
        saves := [], spawns := [], sleeps := [], terminated := false }
  | .mpv (.pause p) =>
      let st' := { s.state with
        phase := if p then .paused else .playing }
      { st := { s with state := st', want_paused := p },
        published := [st'], mpvCmds := [], saves := [], spawns := [],
        sleeps := [], terminated := false }
  | .mpv (.crashed e) =>
      let st' := { s.state with
        phase := .error, error := some ("mpv error: " ++ e) }
      { st := { s with state := st' }, published := [st'], mpvCmds := [],
        saves := [], spawns := [], sleeps := [250], terminated := false }
  | .internal (.searchDone q res) =>
      if q ≠ s.state.search_query then
        { st := s, published := [], mpvCmds := [], saves := [],
          spawns := [], sleeps := [], terminated := false }
      else
        match res with
        | .ok results =>
            let st' := { s.state with
              search_results := results,
              search_loading := false, error := none }
            { st := { s with state := st' }, published := [st'],
              mpvCmds := [], saves := [], spawns := [], sleeps := [],
              terminated := false }
        | .error e =>
            let st' := { s.state with
              search_loading := false, error := some e }
            { st := { s with state := st' }, published := [st'],
              mpvCmds := [], saves := [], spawns := [], sleeps := [],
              terminated := false }
  | .internal (.resolveDone station res) =>
      if s.state.station.map (fun st => st.stationuuid) ≠
          some station.stationuuid then
        { st := s, published := [], mpvCmds := [], saves := [],
          spawns := [], sleeps := [], terminated := false }
      else
        match res with
        | .ok url =>
            let st' := { s.state with phase := .playing, error := none }
            let cfg' := { s.config with
              last_station := some station,
              last_server := match s.rb_last_server with
                | some srv => some srv
                | none => s.config.last_server }
            { st := { s with
                state := st', config := cfg',
                current_url := some url },
              published := [st'], mpvCmds := [.loadUrl url],
              saves := [cfg'], spawns := [], sleeps := [],
              terminated := false }
        | .error e =>
            let st' := { s.state with phase := .error, error := some e }
            { st := { s with state := st' }, published := [st'],
              mpvCmds := [], saves := [], spawns := [], sleeps := [],
              terminated := false }

/-- The no-effect iteration outcome: state unchanged, nothing published,
sent, saved, spawned or slept, loop continues. -/
def noopStep (s : CtrlState) : StepOut :=
  { st := s, published := [], mpvCmds := [], saves := [], spawns := [],
    sleeps := [], terminated := false }

/-- C3: on a supervisor `Ready` event with a pending desired URL, the
controller issues `LoadUrl` with that URL followed by `SetPause` with the
remembered desired-paused flag, sets the phase to `Paused` when that flag
is set and `Playing` otherwise, clears the error and publishes the new
snapshot; with no pending URL, `Ready` changes nothing. -/
theorem ready_replays_desired_url (s : CtrlState) :
    (∀ url, s.current_url = some url →
      controller_step s (.mpv .ready) =
        { st := { s with state := { s.state with
              phase := if s.want_paused then .paused else .playing,
              error := none } },
          published := [{ s.state with
            phase := if s.want_paused then .paused else .playing,
            error := none }],
          mpvCmds := [.loadUrl url, .setPause s.want_paused],
          saves := [], spawns := [], sleeps := [], terminated := false }) ∧
    (s.current_url = none →
      controller_step s (.mpv .ready) = noopStep s) := by
  constructor
  · intro url h
    simp [controller_step, h]
  · intro h
    simp [controller_step, h, noopStep]

/-- A concrete controller local state used by the controller witnesses:
a pending URL, desired-paused set, a nonempty snapshot. -/
def sWit : CtrlState :=
  { state := {
      phase := .error, station := some stA, media_title := some "t",
      error := some "old", search_query := "q", search_loading := true,
      search_results := [], favorites := [stB] },
    config := {
      last_station := some stA, last_server := some "de1",
      favorites := [stB] },
    current_url := some "http://stream/a", want_paused := true,
    rb_last_server := some "fr1" }

/-- C3 witness: the `Ready` theorem at the concrete state `sWit` (pending
URL, desired-paused set) and at `sWit` with the URL cleared. -/
theorem ready_replays_desired_url_holds :
    controller_step sWit (.mpv .ready) =
      { st := { sWit with state := { sWit.state with
            phase := .paused, error := none } },
        published := [{ sWit.state with phase := .paused, error := none }],
        mpvCmds := [.loadUrl "http://stream/a", .setPause true],
        saves := [], spawns := [], sleeps := [], terminated := false } ∧
    controller_step { sWit with current_url := none } (.mpv .ready) =
      noopStep { sWit with current_url := none } :=
  ⟨(ready_replays_desired_url sWit).1 "http://stream/a" rfl,
   (ready_replays_desired_url { sWit with current_url := none }).2 rfl⟩

/-- C5: a search completion whose query differs from the live
`search_query` is discarded as stale: the whole controller state is
unchanged and nothing is published, sent, saved or spawned. -/
theorem stale_search_result_discarded (s : CtrlState) (q : String)
    (res : Except String (List Station))
    (h : q ≠ s.state.search_query) :
    controller_step s (.internal (.searchDone q res)) = noopStep s := by
  simp [controller_step, h, noopStep]

/-- C5 witness: the staleness theorem at `sWit` (live query `"q"`) for a
completed search of the superseded query `"old-q"`. -/
theorem stale_search_result_discarded_holds :
    controller_step sWit (.internal (.searchDone "old-q" (.ok []))) =
      noopStep sWit :=
  stale_search_result_discarded sWit "old-q" (.ok []) (by decide)

/-- C6: processing `Stop` from any prior state clears the station, the
media title and the error, sets the phase to `NotConfigured`, clears the
pending URL and desired-paused flag, clears the in-memory persisted
last-station field, publishes the new snapshot, hands the new config to a
background save, and forwards `Stop` (and a title reset) to the
supervisor. -/
theorem stop_clears_station (s : CtrlState) :
    controller_step s (.ui .stop) =
      { st := { s with
          state := { s.state with
            error := none, station := none,
            media_title := none, phase := .notConfigured },
          config := { s.config with last_station := none },
          current_url := none, want_paused := false },
        published := [{ s.state with
          error := none, station := none,
          media_title := none, phase := .notConfigured }],
        mpvCmds := [.stop, .setTitle ""],
        saves := [{ s.config with last_station := none }],
        spawns := [], sleeps := [], terminated := false } := by
  simp [controller_step]

/-- C6 witness: the `Stop` theorem at the concrete state `sWit`. -/
theorem stop_clears_station_holds :
    (controller_step sWit (.ui .stop)).st.state.station = none ∧
    (controller_step sWit (.ui .stop)).st.state.media_title = none ∧
    (controller_step sWit (.ui .stop)).st.state.phase = .notConfigured ∧
    (controller_step sWit (.ui .stop)).st.config.last_station = none ∧
    (controller_step sWit (.ui .stop)).mpvCmds = [.stop, .setTitle ""] := by
  rw [stop_clears_station sWit]
  exact ⟨rfl, rfl, rfl, rfl, rfl⟩

/-! ## Stream URL validation (`radio_browser.rs`, `parse_stream_url`) -/

/-- First character of a URL scheme: ASCII alphabetic. -/
def isSchemeStartChar (c : Char) : Bool := c.isAlpha

/-- Subsequent scheme characters: alphanumeric, `+`, `-` or `.`. -/
def isSchemeContChar (c : Char) : Bool :=
  c.isAlphanum || c == '+' || c == '-' || c == '.'

/-- Characters of the scheme up to the terminating colon, or `none` when
a non-scheme character or the end of input is reached first. -/
def schemeChars : List Char → Option (List Char)
  | [] => none
  | c :: cs =>
      if c = ':' then some []
      else if isSchemeContChar c then
        (schemeChars cs).map (fun r => c :: r)
      else none

/-- Modelled from the spec: `Url::parse` of the external url crate is not
part of this repository; only the part `parse_stream_url` inspects is
represented — extraction of the URL scheme (an alphabetic character
followed by scheme characters up to a colon), lowercased as the crate
normalizes it. `none` stands for a `Url::parse` error. -/
def urlScheme (s : String) : Option String :=
  match s.data with
  | [] => none
  | c :: cs =>
      if isSchemeStartChar c then
        (schemeChars cs).map (fun r => String.mk ((c :: r).map Char.toLower))
      else none

/-- Errors of `parse_stream_url`: an invalid URL (wrapped parse error) or
an unsupported scheme. -/
inductive StreamUrlError
  | invalidUrl
  | unsupportedScheme (scheme : String)
deriving DecidableEq

/-- `radio_browser.rs`: `parse_stream_url` (lines 173-179): parse the URL
(modelled by scheme extraction) and accept only the `http` and `https`
schemes; any other scheme is an unsupported-scheme error. The input is
returned on success, standing for the parsed `Url`. -/
def parse_stream_url (s : String) : Except StreamUrlError String :=
  match urlScheme s with
  | none => .error .invalidUrl
  | some sch =>
      if sch = "http" || sch = "https" then .ok s
      else .error (.unsupportedScheme sch)

/-- C8: stream-URL validation succeeds exactly when the string parses
with scheme `http` or `https`; a parse with any other scheme fails with
an unsupported-scheme error carrying that scheme; in particular
`file:///etc/passwd` is rejected with scheme `file`, while concrete
`http` and `https` URLs are accepted. -/
theorem parse_stream_url_scheme_gate :
    (∀ s : String, (parse_stream_url s).isOk = true ↔
      (∃ sch, urlScheme s = some sch ∧ (sch = "http" ∨ sch = "https"))) ∧
    (∀ (s sch : String), urlScheme s = some sch → sch ≠ "http" →
      sch ≠ "https" →
      parse_stream_url s = .error (.unsupportedScheme sch)) ∧
    parse_stream_url "file:///etc/passwd" =
      .error (.unsupportedScheme "file") ∧
    (parse_stream_url "http://example.com/stream").isOk = true ∧
    (parse_stream_url "https://example.com/stream").isOk = true := by
  refine ⟨?_, ?_, rfl, rfl, rfl⟩
  · intro s
    cases hu : urlScheme s with
    | none => simp [parse_stream_url, hu, Except.isOk, Except.toBool]
    | some sch =>
        by_cases h1 : sch = "http"
        · simp [parse_stream_url, hu, h1, Except.isOk, Except.toBool]
        · by_cases h2 : sch = "https"
          · simp [parse_stream_url, hu, h1, h2, Except.isOk, Except.toBool]
          · simp [parse_stream_url, hu, h1, h2, Except.isOk, Except.toBool]
  · intro s sch hu h1 h2
    simp [parse_stream_url, hu, h1, h2]

/-- C8 witness: the scheme-gate theorem applied to `ftp://host/x`, whose
extracted scheme `ftp` is neither `http` nor `https`. -/
theorem parse_stream_url_scheme_gate_holds :
    parse_stream_url "ftp://host/x" = .error (.unsupportedScheme "ftp") :=
  parse_stream_url_scheme_gate.2.1 "ftp://host/x" "ftp" rfl
    (by decide) (by decide)

end CosmicRadio
